import Mathlib

/-!
# Weather tracker: the page parser (`parser.go`)

A shallow embedding of package `parser`: `GetWeather`, `parseWeatherData` and
`PrintWeather`, followed by the properties the specification states about them.

Modelling conventions.

* Go strings are Lean `String`s (sequences of Unicode code points); the texts
  handled here come out of an HTML parser and are taken to be valid UTF-8, so
  `utf8.RuneCountInString` is `String.length`.
* A parsed `goquery.Document` is represented by what the code observes of it:
  for each of the six selectors passed to `doc.Find`, the `Text()` of every
  matched node, in document order.
* `Selection.Each` is a left-to-right loop threading the record being filled.
* The outside world of `GetWeather` (request construction, transport, HTML
  parsing, the clock) is passed in explicitly.
* Standard output is the list of writes made, one per `fmt.Println` or
  `fmt.Printf` call; the lines printed are the character stream of these
  writes, cut at line feeds.
-/

namespace WeatherTracker

/-! ## Strings: `strings.TrimSpace`, `strings.Contains` -/

/-- Go `unicode.IsSpace`: in Latin-1 the characters tab, line feed, vertical
tab, form feed, carriage return, space, U+0085 and U+00A0; beyond Latin-1 the
code points with the `White_Space` property. -/
def isSpace (c : Char) : Bool :=
  let r := c.toNat
  if r ≤ 0xFF then
    r == 0x09 || r == 0x0A || r == 0x0B || r == 0x0C || r == 0x0D || r == 0x20
      || r == 0x85 || r == 0xA0
  else
    r == 0x1680 || (0x2000 ≤ r && r ≤ 0x200A) || r == 0x2028 || r == 0x2029
      || r == 0x202F || r == 0x205F || r == 0x3000

/-- Remove the leading run of white space of a character list. -/
def trimLeft (l : List Char) : List Char := l.dropWhile isSpace

/-- Remove the trailing run of white space of a character list. -/
def trimRight (l : List Char) : List Char := (l.reverse.dropWhile isSpace).reverse

/-- Go `strings.TrimSpace`: the string without its leading and trailing white
space. -/
def TrimSpace (s : String) : String := String.mk (trimRight (trimLeft s.data))

/-- Whether `sub` occurs in `l` as a contiguous block. -/
def containsChars (sub : List Char) : List Char → Bool
  | [] => sub.isPrefixOf []
  | c :: cs => sub.isPrefixOf (c :: cs) || containsChars sub cs

/-- Go `strings.Contains`: whether `substr` occurs within `s`. -/
def Contains (s substr : String) : Bool := containsChars substr.data s.data

/-- The degree symbol U+00B0 that the feels-like heuristic looks for. -/
def degree : String := "°"

/-! ## The record and the document -/

/-- Modelled from the spec: the record `types.Weather` of package
`weather-tracker/internal/types`, whose declaration is not part of the source
at hand. The fields are the seven the parser assigns and prints, all textual. -/
structure Weather where
  Temperature : String
  Condition : String
  FeelsLike : String
  Pressure : String
  Humidity : String
  Wind : String
  UpdatedAt : String
deriving DecidableEq, Repr

/-- The zero value `&types.Weather{}`: every field is the empty string. -/
def Weather.zero : Weather :=
  { Temperature := "", Condition := "", FeelsLike := "", Pressure := "",
    Humidity := "", Wind := "", UpdatedAt := "" }

/-- A parsed document, as `parseWeatherData` observes it: the `Text()` of each
node matched by each selector, in document order. -/
structure Document where
  /-- Matches of `.temp__value`. -/
  tempValue : List String
  /-- Matches of `.link__condition`. -/
  linkCondition : List String
  /-- Matches of `.term__value`. -/
  termValue : List String
  /-- Matches of `.term[data-term='pressure'] .term__value`. -/
  pressureValue : List String
  /-- Matches of `.term[data-term='humidity'] .term__value`. -/
  humidityValue : List String
  /-- Matches of `.wind-speed`. -/
  windSpeed : List String
deriving DecidableEq, Repr

/-- The loop of `Selection.Each` from index `i` on. -/
def eachFrom {σ : Type} (f : Nat → String → σ → σ) : Nat → List String → σ → σ
  | _, [], st => st
  | i, s :: rest, st => eachFrom f (i + 1) rest (f i s st)

/-- Go `Selection.Each`: call `f` on every matched node with its index, in
document order; the callback updates the captured record. -/
def Each {σ : Type} (sel : List String) (f : Nat → String → σ → σ) (st : σ) : σ :=
  eachFrom f 0 sel st

/-! ## The clock: `time.Now().Format` -/

/-- A reading of the local clock, broken into civil fields as `Time.Format`
does before printing. -/
structure Time where
  year : Int
  month : Nat
  day : Nat
  hour : Nat
  minute : Nat
  second : Nat
deriving DecidableEq, Repr

/-- Go `time.appendInt`: the decimal form of `x`, zero-padded on the left to
`width` digits, after a minus sign when `x` is negative. -/
def appendInt (x : Int) (width : Nat) : List Char :=
  let digits := Nat.toDigits 10 x.natAbs
  (if x < 0 then ['-'] else []) ++ List.replicate (width - digits.length) '0' ++ digits

/-- The layout `2006-01-02 15:04:05` applied to a clock reading: four-digit
year, then two-digit month, day, hour, minute and second. -/
def Time.Format (t : Time) : String :=
  String.mk (appendInt t.year 4 ++ ['-'] ++ appendInt t.month 2 ++ ['-'] ++ appendInt t.day 2
    ++ [' '] ++ appendInt t.hour 2 ++ [':'] ++ appendInt t.minute 2 ++ [':'] ++ appendInt t.second 2)

/-! ## `parseWeatherData` -/

/-- The error of `parseWeatherData` when no temperature was found. -/
def errUnavailable : String := "не удалось получить данные о погоде"

/-- The body of `parseWeatherData` up to and including the time stamp: the six
`Find(...).Each(...)` loops in source order, then `UpdatedAt`. -/
def extractFields (doc : Document) (now : Time) : Weather :=
  let weather := Weather.zero
  let weather := Each doc.tempValue (fun i s w =>
    if i == 0 then { w with Temperature := TrimSpace s } else w) weather
  let weather := Each doc.linkCondition (fun i s w =>
    if i == 0 then { w with Condition := TrimSpace s } else w) weather
  let weather := Each doc.termValue (fun _ s w =>
    let text := TrimSpace s
    if Contains text degree && w.FeelsLike == "" then { w with FeelsLike := text } else w) weather
  let weather := Each doc.pressureValue (fun i s w =>
    if i == 0 then { w with Pressure := TrimSpace s } else w) weather
  let weather := Each doc.humidityValue (fun i s w =>
    if i == 0 then { w with Humidity := TrimSpace s } else w) weather
  let weather := Each doc.windSpeed (fun i s w =>
    if i == 0 then { w with Wind := TrimSpace s } else w) weather
  { weather with UpdatedAt := now.Format }

/-- The method `parseWeatherData`: fill the record, then fail when the
temperature is empty; `Except.error` is the Go result `nil, err`. -/
def parseWeatherData (doc : Document) (now : Time) : Except String Weather :=
  let weather := extractFields doc now
  if weather.Temperature == "" then .error errUnavailable else .ok weather

/-! ## The loops, declaratively -/

/-- The trimmed text of the first match of a selector, empty when it has none. -/
def firstText : List String → String
  | [] => ""
  | s :: _ => TrimSpace s

/-- The first trimmed text, in order, that contains the degree symbol; empty
when there is none. -/
def firstDegree : List String → String
  | [] => ""
  | s :: rest => if Contains (TrimSpace s) degree then TrimSpace s else firstDegree rest

/-- The feels-like callback of the third loop. -/
def feelsLikeStep (s : String) (w : Weather) : Weather :=
  let text := TrimSpace s
  if Contains text degree && w.FeelsLike == "" then { w with FeelsLike := text } else w

/-! ## `GetWeather` -/

/-- What `GetWeather` reads of an HTTP response: the status code and the body. -/
structure Response where
  StatusCode : Int
  Body : String
deriving DecidableEq, Repr

/-- The collaborators of `GetWeather`, each given by its result: building the
request, sending it, parsing the body as HTML, and reading the clock. An error
is carried by its message. -/
structure World where
  /-- The result of `http.NewRequest`. -/
  newRequest : Except String Unit
  /-- The result of `p.client.Do(req)`. -/
  clientDo : Except String Response
  /-- The function `goquery.NewDocumentFromReader`, applied to a body. -/
  newDocument : String → Except String Document
  /-- The value of `time.Now()`. -/
  now : Time

/-- The constant `http.StatusOK`. -/
def StatusOK : Int := 200

/-- Go `%d` for an integer: its decimal form. -/
def formatInt (n : Int) : String := toString n

/-- The message of the error `GetWeather` returns for a status code other
than `http.StatusOK`. -/
def errStatus (code : Int) : String := "неверный статус код: " ++ formatInt code

/-- The method `GetWeather`: build the request, send it, check the status,
parse the body, extract. Each failure returns `nil` and a wrapped error. -/
def GetWeather (env : World) : Except String Weather :=
  match env.newRequest with
  | .error err => .error ("ошибка создания запроса: " ++ err)
  | .ok _ =>
    match env.clientDo with
    | .error err => .error ("ошибка выполнения запроса: " ++ err)
    | .ok resp =>
      if resp.StatusCode != StatusOK then
        .error (errStatus resp.StatusCode)
      else
        match env.newDocument resp.Body with
        | .error err => .error ("ошибка парсинга HTML: " ++ err)
        | .ok doc => parseWeatherData doc env.now

/-! ## `PrintWeather` -/

/-- Go `fmt.Println` of one string: the string and a line feed. -/
def Println (s : String) : String := s ++ "\n"

/-- Go `%-Ns`: the string, then spaces up to `width` code points; a longer
string is left whole. -/
def padRight (width : Nat) (s : String) : String :=
  s ++ String.mk (List.replicate (width - s.length) ' ')

/-- The write of line 109, without its line feed. -/
def topBorder : String := "┌─────────────────────────────────────────┐"
/-- The write of line 110, without its line feed. -/
def titleLine : String := "│           Погода в Москве               │"
/-- The write of line 111, without its line feed. -/
def separator : String := "├─────────────────────────────────────────┤"
/-- The write of line 129, without its line feed. -/
def bottomBorder : String := "└─────────────────────────────────────────┘"

/-- The write of line 112: `"│  Температура: %-25s │\n"`. -/
def temperatureLine (v : String) : String := "│  Температура: " ++ padRight 25 v ++ " │\n"
/-- The write of line 113: `"│  Состояние: %-27s │\n"`. -/
def conditionLine (v : String) : String := "│  Состояние: " ++ padRight 27 v ++ " │\n"
/-- The write of line 116: `"│  Ощущается как: %-22s │\n"`. -/
def feelsLikeLine (v : String) : String := "│  Ощущается как: " ++ padRight 22 v ++ " │\n"
/-- The write of line 119: `"│  Давление: %-26s │\n"`. -/
def pressureLine (v : String) : String := "│  Давление: " ++ padRight 26 v ++ " │\n"
/-- The write of line 122: `"│  Влажность: %-25s │\n"`. -/
def humidityLine (v : String) : String := "│  Влажность: " ++ padRight 25 v ++ " │\n"
/-- The write of line 125: `"│  Ветер: %-29s │\n"`. -/
def windLine (v : String) : String := "│  Ветер: " ++ padRight 29 v ++ " │\n"
/-- The write of line 128: `"│  Обновлено: %-26s │\n"`. -/
def updatedLine (v : String) : String := "│  Обновлено: " ++ padRight 26 v ++ " │\n"

/-- The method `PrintWeather`: the writes it makes to standard output, in
order, one per `fmt` call. -/
def PrintWeather (weather : Weather) : List String :=
  let out : List String := []
  let out := out ++ [Println topBorder]
  let out := out ++ [Println titleLine]
  let out := out ++ [Println separator]
  let out := out ++ [temperatureLine weather.Temperature]
  let out := out ++ [conditionLine weather.Condition]
  let out := if weather.FeelsLike != "" then out ++ [feelsLikeLine weather.FeelsLike] else out
  let out := if weather.Pressure != "" then out ++ [pressureLine weather.Pressure] else out
  let out := if weather.Humidity != "" then out ++ [humidityLine weather.Humidity] else out
  let out := if weather.Wind != "" then out ++ [windLine weather.Wind] else out
  let out := out ++ [updatedLine weather.UpdatedAt]
  let out := out ++ [Println bottomBorder]
  out

/-! ## Notions the properties are stated with -/

/-- A clock reading whose civil fields are in range: month 1 to 12, day 1 to
31, hour below 24, minute and second below 60. -/
def Time.valid (t : Time) : Prop :=
  1 ≤ t.month ∧ t.month ≤ 12 ∧ 1 ≤ t.day ∧ t.day ≤ 31 ∧ t.hour < 24 ∧ t.minute < 60
    ∧ t.second < 60

instance (t : Time) : Decidable t.valid := by
  unfold Time.valid
  exact inferInstance

/-- The pattern `\d{4}-\d{2}-\d{2} \d{2}:\d{2}:\d{2}`, anchored at both ends:
nineteen characters, digits and separators at the fixed positions. -/
def matchesTimestamp (s : String) : Bool :=
  match s.data with
  | [y1, y2, y3, y4, a, m1, m2, b, d1, d2, c, h1, h2, d, n1, n2, e, s1, s2] =>
    y1.isDigit && y2.isDigit && y3.isDigit && y4.isDigit && a == '-'
      && m1.isDigit && m2.isDigit && b == '-' && d1.isDigit && d2.isDigit && c == ' '
      && h1.isDigit && h2.isDigit && d == ':' && n1.isDigit && n2.isDigit && e == ':'
      && s1.isDigit && s2.isDigit
  | _ => false

/-- How many of the four conditional fields are non-empty. -/
def optionalCount (w : Weather) : Nat :=
  (if w.FeelsLike ≠ "" then 1 else 0) + (if w.Pressure ≠ "" then 1 else 0)
    + (if w.Humidity ≠ "" then 1 else 0) + (if w.Wind ≠ "" then 1 else 0)

/-- The character stream that a sequence of writes leaves on standard output. -/
def stream : List String → List Char
  | [] => []
  | s :: rest => s.data ++ stream rest

/-- The lines of a character stream: it is cut after every line feed, and the
line feed itself is not part of the line; characters after the last line feed
form a last line. -/
def splitLines : List Char → List (List Char)
  | [] => []
  | c :: cs =>
    if c = '\n' then [] :: splitLines cs
    else
      match splitLines cs with
      | [] => [[c]]
      | l :: ls => (c :: l) :: ls

/-- The lines a sequence of writes prints. -/
def printedLines (writes : List String) : List String :=
  (splitLines (stream writes)).map String.mk

/-- A record none of whose seven fields contains a line feed. -/
def noLineFeed (w : Weather) : Prop :=
  '\n' ∉ w.Temperature.data ∧ '\n' ∉ w.Condition.data ∧ '\n' ∉ w.FeelsLike.data
    ∧ '\n' ∉ w.Pressure.data ∧ '\n' ∉ w.Humidity.data ∧ '\n' ∉ w.Wind.data
    ∧ '\n' ∉ w.UpdatedAt.data

instance (w : Weather) : Decidable (noLineFeed w) := by
  unfold noLineFeed
  exact inferInstance

/-- The lines of the box for a record, without their line feeds. -/
def boxLines (w : Weather) : List String :=
  ["┌─────────────────────────────────────────┐",
    "│           Погода в Москве               │",
    "├─────────────────────────────────────────┤",
    "│  Температура: " ++ padRight 25 w.Temperature ++ " │",
    "│  Состояние: " ++ padRight 27 w.Condition ++ " │"]
  ++ (if w.FeelsLike ≠ "" then ["│  Ощущается как: " ++ padRight 22 w.FeelsLike ++ " │"] else [])
  ++ (if w.Pressure ≠ "" then ["│  Давление: " ++ padRight 26 w.Pressure ++ " │"] else [])
  ++ (if w.Humidity ≠ "" then ["│  Влажность: " ++ padRight 25 w.Humidity ++ " │"] else [])
  ++ (if w.Wind ≠ "" then ["│  Ветер: " ++ padRight 29 w.Wind ++ " │"] else [])
  ++ ["│  Обновлено: " ++ padRight 26 w.UpdatedAt ++ " │",
    "└─────────────────────────────────────────┘"]

/-! ## Sample inputs -/

/-- A clock reading: 9 March 2024, 07:05:00. -/
def sampleClock : Time := ⟨2024, 3, 9, 7, 5, 0⟩

/-- A clock reading in the year 10000. -/
def farClock : Time := ⟨10000, 1, 1, 0, 0, 0⟩

/-- A page whose first `.temp__value` node is empty and whose second holds a
temperature. -/
def emptyFirstDoc : Document :=
  { tempValue := ["", "+5°"], linkCondition := ["Ясно"], termValue := [],
    pressureValue := [], humidityValue := [], windSpeed := [] }

/-- A page with every field but no `.temp__value` node. -/
def noTempDoc : Document :=
  { tempValue := [], linkCondition := ["Ясно"], termValue := ["+2°", "745 мм", "61%"],
    pressureValue := ["745 мм"], humidityValue := ["61%"], windSpeed := ["3 м/с"] }

/-- The page of the scenario: temperature, condition and pressure, no
humidity or wind markup. The pressure value is also a `.term__value` node. -/
def scenarioDoc : Document :=
  { tempValue := ["−3°"], linkCondition := ["Облачно"], termValue := ["745 мм"],
    pressureValue := ["745 мм"], humidityValue := [], windSpeed := [] }

/-- The record expected of `scenarioDoc` at `sampleClock`. -/
def scenarioRecord : Weather :=
  { Temperature := "−3°", Condition := "Облачно", FeelsLike := "", Pressure := "745 мм",
    Humidity := "", Wind := "", UpdatedAt := "2024-03-09 07:05:00" }

/-- A page whose term values are a percentage, then two temperatures. -/
def feelsLikeDoc : Document :=
  { tempValue := ["+1°"], linkCondition := [], termValue := ["12%", "−5°", "−9°"],
    pressureValue := [], humidityValue := [], windSpeed := [] }

/-- A page whose term values are a percentage, then one temperature. -/
def termPairDoc : Document :=
  { tempValue := ["+1°"], linkCondition := [], termValue := ["12%", "−5°"],
    pressureValue := [], humidityValue := [], windSpeed := [] }

/-- A page with a temperature and nothing else. -/
def bareDoc : Document :=
  { tempValue := [" +7° "], linkCondition := [], termValue := [],
    pressureValue := [], humidityValue := [], windSpeed := [] }

/-- A record with every field filled, each within its padding width. -/
def fullRecord : Weather :=
  { Temperature := "+2°", Condition := "Ясно", FeelsLike := "−1°", Pressure := "745 мм",
    Humidity := "61%", Wind := "3 м/с", UpdatedAt := "2024-03-09 07:05:00" }

/-- A world in which the server answers 404. -/
def notFoundWorld : World :=
  { newRequest := .ok (), clientDo := .ok ⟨404, "<html></html>"⟩,
    newDocument := fun _ => .ok scenarioDoc, now := sampleClock }

/-- A world in which the server answers 200 with the scenario page. -/
def okWorld : World :=
  { newRequest := .ok (), clientDo := .ok ⟨200, "<html></html>"⟩,
    newDocument := fun _ => .ok scenarioDoc, now := sampleClock }

/-- A page whose `.temp__value` node holds the temperature and, on a line of
its own, the unit. -/
def multiLineDoc : Document :=
  { tempValue := ["\n  +2°\n  по Цельсию\n"], linkCondition := ["Ясно"], termValue := [],
    pressureValue := [], humidityValue := [], windSpeed := [] }

/-- The record `parseWeatherData` returns for `multiLineDoc` at `sampleClock`. -/
def multiLineRecord : Weather :=
  { Temperature := "+2°\n  по Цельсию", Condition := "Ясно", FeelsLike := "", Pressure := "",
    Humidity := "", Wind := "", UpdatedAt := "2024-03-09 07:05:00" }

/-! ## The loops in closed form -/

/-- Past index 0 a first-match callback leaves the record as it is. -/
theorem eachFrom_succ_firstOnly {σ : Type} (g : String → σ → σ) (l : List String) (i : Nat)
    (st : σ) : eachFrom (fun i s w => if i == 0 then g s w else w) (i + 1) l st = st := by
  induction l generalizing i with
  | nil => rfl
  | cons s rest ih =>
    show eachFrom _ (i + 1 + 1) rest (if (i + 1 == 0) = true then g s st else st) = st
    rw [if_neg (by simp)]
    exact ih (i + 1)

/-- A first-match loop over no match leaves the record as it is. -/
theorem Each_firstOnly_nil {σ : Type} (g : String → σ → σ) (st : σ) :
    Each [] (fun i s w => if i == 0 then g s w else w) st = st := rfl

/-- A first-match loop applies its assignment to the first match only. -/
theorem Each_firstOnly_cons {σ : Type} (g : String → σ → σ) (s : String) (rest : List String)
    (st : σ) : Each (s :: rest) (fun i s w => if i == 0 then g s w else w) st = g s st := by
  show eachFrom _ (0 + 1) rest (if (0 == 0) = true then g s st else st) = g s st
  rw [if_pos (show ((0 : Nat) == 0) = true from rfl)]
  exact eachFrom_succ_firstOnly g rest 0 _

/-- The empty text holds no degree symbol. -/
theorem Contains_empty_degree : Contains "" degree = false := by decide

/-- A text holding a degree symbol is not empty. -/
theorem ne_empty_of_Contains_degree {t : String} (h : Contains t degree = true) : t ≠ "" := by
  intro ht
  rw [ht, Contains_empty_degree] at h
  exact Bool.noConfusion h

/-- Once FeelsLike is set, the feels-like loop changes nothing. -/
theorem eachFrom_feelsLike_set (l : List String) (i : Nat) (w : Weather)
    (h : w.FeelsLike ≠ "") : eachFrom (fun _ s w => feelsLikeStep s w) i l w = w := by
  induction l generalizing i with
  | nil => rfl
  | cons s rest ih =>
    have hs : feelsLikeStep s w = w := by simp [feelsLikeStep, h]
    simp [eachFrom, hs, ih]

/-- From an empty FeelsLike, the feels-like loop stores the first trimmed text
with a degree symbol. -/
theorem eachFrom_feelsLike (l : List String) (i : Nat) (w : Weather) (h : w.FeelsLike = "") :
    eachFrom (fun _ s w => feelsLikeStep s w) i l w = { w with FeelsLike := firstDegree l } := by
  induction l generalizing i with
  | nil =>
    cases w
    simp only [eachFrom, firstDegree] at *
    simp [h]
  | cons s rest ih =>
    by_cases hc : Contains (TrimSpace s) degree = true
    · have hs : feelsLikeStep s w = { w with FeelsLike := TrimSpace s } := by
        simp [feelsLikeStep, hc, h]
      simp only [eachFrom, hs, firstDegree, hc, if_true]
      exact eachFrom_feelsLike_set rest (i + 1) _ (ne_empty_of_Contains_degree hc)
    · have hs : feelsLikeStep s w = w := by simp [feelsLikeStep, hc]
      simp only [eachFrom, hs, firstDegree, hc]
      simpa using ih (i + 1)

/-- The feels-like loop on a record whose FeelsLike is still empty. -/
theorem Each_feelsLike (l : List String) (a b c d e u : String) :
    Each l (fun _ s w => feelsLikeStep s w) ⟨a, b, "", c, d, e, u⟩ =
      ⟨a, b, firstDegree l, c, d, e, u⟩ :=
  eachFrom_feelsLike l 0 ⟨a, b, "", c, d, e, u⟩ rfl

/-- The record `parseWeatherData` builds, field by field. -/
theorem extractFields_eq (doc : Document) (now : Time) :
    extractFields doc now =
      { Temperature := firstText doc.tempValue
        Condition := firstText doc.linkCondition
        FeelsLike := firstDegree doc.termValue
        Pressure := firstText doc.pressureValue
        Humidity := firstText doc.humidityValue
        Wind := firstText doc.windSpeed
        UpdatedAt := now.Format } := by
  obtain ⟨tv, lc, te, pv, hv, ws⟩ := doc
  have hf : (fun (_ : Nat) (s : String) (w : Weather) =>
      let text := TrimSpace s
      if Contains text degree && w.FeelsLike == "" then { w with FeelsLike := text } else w)
      = (fun _ s w => feelsLikeStep s w) := rfl
  simp only [extractFields, hf]
  cases tv <;> cases lc <;> cases pv <;> cases hv <;> cases ws <;>
    simp only [Each_firstOnly_nil, Each_firstOnly_cons, Weather.zero, Each_feelsLike, firstText]

/-! ## Facts about the degree test -/

/-- Searching for a one-character block is membership. -/
theorem containsChars_singleton (c : Char) (l : List Char) :
    containsChars [c] l = true ↔ c ∈ l := by
  induction l with
  | nil => simp [containsChars, List.isPrefixOf]
  | cons a rest ih =>
    simp only [containsChars, List.isPrefixOf, Bool.and_true, Bool.or_eq_true, ih,
      List.mem_cons, beq_iff_eq]

/-- A text contains the degree symbol exactly when U+00B0 is one of its
characters. -/
theorem Contains_degree_iff (s : String) : Contains s degree = true ↔ '°' ∈ s.data :=
  containsChars_singleton '°' s.data

/-- Dropping a leading run of other characters keeps every occurrence of `c`. -/
theorem mem_dropWhile_of_not {p : Char → Bool} {c : Char} (hc : p c = false) (l : List Char) :
    c ∈ l.dropWhile p ↔ c ∈ l := by
  induction l with
  | nil => simp
  | cons a rest ih =>
    by_cases ha : p a = true
    · have hne : c ≠ a := by
        intro h
        rw [h, ha] at hc
        exact Bool.noConfusion hc
      simp [List.dropWhile_cons, ha, ih, hne]
    · simp [List.dropWhile_cons, ha]

/-- Trimming neither removes nor adds a degree symbol. -/
theorem Contains_TrimSpace_degree (s : String) :
    Contains (TrimSpace s) degree = Contains s degree := by
  have hd : isSpace '°' = false := by decide
  have h : Contains (TrimSpace s) degree = true ↔ Contains s degree = true := by
    rw [Contains_degree_iff, Contains_degree_iff]
    simp only [TrimSpace, trimRight, trimLeft, List.mem_reverse, mem_dropWhile_of_not hd]
  cases h1 : Contains (TrimSpace s) degree <;> cases h2 : Contains s degree <;> simp_all

/-- Texts without a degree symbol in front of one that has it are passed over. -/
theorem firstDegree_append (pre : List String) (x : String) (post : List String)
    (hpre : ∀ p ∈ pre, Contains p degree = false) (hx : Contains x degree = true) :
    firstDegree (pre ++ x :: post) = TrimSpace x := by
  induction pre with
  | nil => simp [firstDegree, Contains_TrimSpace_degree, hx]
  | cons p rest ih =>
    have hp : Contains p degree = false := hpre p (List.mem_cons_self _ _)
    have hrest : ∀ q ∈ rest, Contains q degree = false :=
      fun q hq => hpre q (List.mem_cons_of_mem _ hq)
    simp [firstDegree, Contains_TrimSpace_degree, hp, ih hrest]

/-- No text with a degree symbol, no feels-like value. -/
theorem firstDegree_none (l : List String) (h : ∀ p ∈ l, Contains p degree = false) :
    firstDegree l = "" := by
  induction l with
  | nil => rfl
  | cons p rest ih =>
    have hp : Contains p degree = false := h p (List.mem_cons_self _ _)
    have hrest : ∀ q ∈ rest, Contains q degree = false :=
      fun q hq => h q (List.mem_cons_of_mem _ hq)
    simp [firstDegree, Contains_TrimSpace_degree, hp, ih hrest]

/-! ## `parseWeatherData`: success and failure -/

/-- The extracted Temperature is the trimmed first `.temp__value` match, or empty. -/
theorem extractFields_Temperature (doc : Document) (now : Time) :
    (extractFields doc now).Temperature = firstText doc.tempValue := by
  rw [extractFields_eq]

/-- A non-empty extracted Temperature makes `parseWeatherData` return the record. -/
theorem parseWeatherData_ok_of_ne (doc : Document) (now : Time)
    (h : (extractFields doc now).Temperature ≠ "") :
    parseWeatherData doc now = .ok (extractFields doc now) := by
  simp [parseWeatherData, h]

/-- An empty extracted Temperature makes `parseWeatherData` fail. -/
theorem parseWeatherData_error_of_eq (doc : Document) (now : Time)
    (h : (extractFields doc now).Temperature = "") :
    parseWeatherData doc now = .error errUnavailable := by
  simp [parseWeatherData, h]

/-- Success is exactly a non-empty extracted Temperature. -/
theorem parseWeatherData_ok_iff (doc : Document) (now : Time) :
    (∃ w, parseWeatherData doc now = .ok w) ↔ (extractFields doc now).Temperature ≠ "" := by
  by_cases h : (extractFields doc now).Temperature = ""
  · simp [parseWeatherData_error_of_eq doc now h, h]
  · simp [parseWeatherData_ok_of_ne doc now h, h]

/-- A returned record is the extracted one. -/
theorem eq_extractFields_of_ok {doc : Document} {now : Time} {w : Weather}
    (h : parseWeatherData doc now = .ok w) : w = extractFields doc now := by
  by_cases ht : (extractFields doc now).Temperature = ""
  · rw [parseWeatherData_error_of_eq doc now ht] at h
    exact Except.noConfusion h
  · rw [parseWeatherData_ok_of_ne doc now ht] at h
    exact (Except.ok.inj h).symm

/-! ## The claims about `parseWeatherData` -/

/-- C1, as stated, fails: on a page whose first `.temp__value` node has empty
text and whose second holds `+5°`, the selector has a match with non-empty
trimmed text, and `parseWeatherData` returns the unavailable error. -/
theorem parseWeatherData_nonempty_match_fails :
    emptyFirstDoc.tempValue ≠ [] ∧
    (∃ t ∈ emptyFirstDoc.tempValue, t ≠ "" ∧ TrimSpace t ≠ "") ∧
    parseWeatherData emptyFirstDoc sampleClock = .error errUnavailable ∧
    ¬ ∃ w, parseWeatherData emptyFirstDoc sampleClock = .ok w := by
  refine ⟨by decide, ⟨"+5°", by decide, by decide, by decide⟩, rfl, ?_⟩
  rintro ⟨w, hw⟩
  have h : parseWeatherData emptyFirstDoc sampleClock = .error errUnavailable := rfl
  rw [h] at hw
  exact Except.noConfusion hw

/-- C1, amended: when the first `.temp__value` match, in document order, has
non-empty trimmed text, `parseWeatherData` succeeds and the Temperature of the
record is that trimmed text. -/
theorem parseWeatherData_temperature_first (doc : Document) (now : Time) (first : String)
    (rest : List String) (hdoc : doc.tempValue = first :: rest) (hne : TrimSpace first ≠ "") :
    ∃ w, parseWeatherData doc now = .ok w ∧ w.Temperature = TrimSpace first := by
  have ht : (extractFields doc now).Temperature = TrimSpace first := by
    rw [extractFields_Temperature, hdoc, firstText]
  refine ⟨extractFields doc now, parseWeatherData_ok_of_ne doc now ?_, ht⟩
  rw [ht]
  exact hne

/-- The scenario page: its only `.temp__value` node holds a temperature. -/
theorem parseWeatherData_temperature_first_witness :
    ∃ w, parseWeatherData scenarioDoc sampleClock = .ok w ∧ w.Temperature = TrimSpace "−3°" :=
  parseWeatherData_temperature_first scenarioDoc sampleClock "−3°" [] rfl (by decide)

/-- C2: when `.temp__value` matches no node, `parseWeatherData` returns the
unavailable error and no record, whatever the other five selectors match. -/
theorem parseWeatherData_no_temp (doc : Document) (now : Time) (h : doc.tempValue = []) :
    parseWeatherData doc now = .error errUnavailable ∧
    errUnavailable = "не удалось получить данные о погоде" ∧
    ¬ ∃ w, parseWeatherData doc now = .ok w := by
  have ht : (extractFields doc now).Temperature = "" := by
    rw [extractFields_Temperature, h, firstText]
  refine ⟨parseWeatherData_error_of_eq doc now ht, rfl, ?_⟩
  rw [parseWeatherData_ok_iff]
  exact fun hne => hne ht

/-- A page with every optional field and no `.temp__value` node. -/
theorem parseWeatherData_no_temp_witness :
    parseWeatherData noTempDoc sampleClock = .error errUnavailable ∧
    errUnavailable = "не удалось получить данные о погоде" ∧
    ¬ ∃ w, parseWeatherData noTempDoc sampleClock = .ok w :=
  parseWeatherData_no_temp noTempDoc sampleClock rfl

/-- C3: `parseWeatherData` succeeds exactly when the Temperature it extracted
is non-empty; a returned record has a non-empty Temperature; a failure comes
with an empty extracted Temperature; and two documents with the same
`.temp__value` matches succeed or fail together, whatever their other matches
and whatever the clock. -/
theorem parseWeatherData_success_iff_temperature (doc : Document) (now : Time) :
    ((∃ w, parseWeatherData doc now = .ok w) ↔ (extractFields doc now).Temperature ≠ "") ∧
    (∀ w, parseWeatherData doc now = .ok w → w.Temperature ≠ "") ∧
    (∀ e, parseWeatherData doc now = .error e →
      (extractFields doc now).Temperature = "" ∧ e = errUnavailable) ∧
    (∀ (other : Document) (later : Time), other.tempValue = doc.tempValue →
      ((∃ w, parseWeatherData other later = .ok w) ↔ (∃ w, parseWeatherData doc now = .ok w))) := by
  refine ⟨parseWeatherData_ok_iff doc now, ?_, ?_, ?_⟩
  · intro w hw
    have hex : ∃ w, parseWeatherData doc now = .ok w := ⟨w, hw⟩
    rw [eq_extractFields_of_ok hw]
    exact (parseWeatherData_ok_iff doc now).mp hex
  · intro e he
    by_cases ht : (extractFields doc now).Temperature = ""
    · rw [parseWeatherData_error_of_eq doc now ht] at he
      exact ⟨ht, (Except.error.inj he).symm⟩
    · rw [parseWeatherData_ok_of_ne doc now ht] at he
      exact Except.noConfusion he
  · intro other later hsame
    rw [parseWeatherData_ok_iff, parseWeatherData_ok_iff, extractFields_Temperature,
      extractFields_Temperature, hsame]

/-- C4: on success, FeelsLike is the trimmed text of the first `.term__value`
match, in document order, whose text contains the degree symbol: earlier
matches without one are skipped and later matches are ignored; FeelsLike is
empty when no match contains a degree symbol. -/
theorem parseWeatherData_feelsLike (doc : Document) (now : Time) (w : Weather)
    (h : parseWeatherData doc now = .ok w) :
    (∀ (pre : List String) (x : String) (post : List String),
      doc.termValue = pre ++ x :: post → (∀ p ∈ pre, Contains p degree = false) →
      Contains x degree = true → w.FeelsLike = TrimSpace x) ∧
    ((∀ p ∈ doc.termValue, Contains p degree = false) → w.FeelsLike = "") := by
  have hw : w.FeelsLike = firstDegree doc.termValue := by
    rw [eq_extractFields_of_ok h, extractFields_eq]
  constructor
  · intro pre x post hdoc hpre hx
    rw [hw, hdoc]
    exact firstDegree_append pre x post hpre hx
  · intro hnone
    rw [hw]
    exact firstDegree_none doc.termValue hnone

/-- Term values `12%`, `−5°`: the percentage is skipped; with a further `−9°`
after them the result is the same. -/
theorem parseWeatherData_feelsLike_witness :
    (termPairDoc.termValue = ["12%", "−5°"] ∧
      (extractFields termPairDoc sampleClock).FeelsLike = TrimSpace "−5°") ∧
    (feelsLikeDoc.termValue = ["12%", "−5°", "−9°"] ∧
      (extractFields feelsLikeDoc sampleClock).FeelsLike = TrimSpace "−5°") ∧
    TrimSpace "−5°" = "−5°" :=
  ⟨⟨rfl,
      (parseWeatherData_feelsLike termPairDoc sampleClock (extractFields termPairDoc sampleClock)
        rfl).1 ["12%"] "−5°" [] rfl (by decide) (by decide)⟩,
    ⟨rfl,
      (parseWeatherData_feelsLike feelsLikeDoc sampleClock
        (extractFields feelsLikeDoc sampleClock) rfl).1 ["12%"] "−5°" ["−9°"] rfl (by decide)
        (by decide)⟩,
    by decide⟩

/-- C5: on success, Condition, Pressure, Humidity and Wind are each the
trimmed text of the first match of their own selector, whatever the matches
after the first are. -/
theorem parseWeatherData_first_match (doc : Document) (now : Time) (w : Weather)
    (h : parseWeatherData doc now = .ok w) :
    (∀ x rest, doc.linkCondition = x :: rest → w.Condition = TrimSpace x) ∧
    (∀ x rest, doc.pressureValue = x :: rest → w.Pressure = TrimSpace x) ∧
    (∀ x rest, doc.humidityValue = x :: rest → w.Humidity = TrimSpace x) ∧
    (∀ x rest, doc.windSpeed = x :: rest → w.Wind = TrimSpace x) := by
  rw [eq_extractFields_of_ok h, extractFields_eq]
  refine ⟨?_, ?_, ?_, ?_⟩ <;> intro x rest hx <;> simp only [hx, firstText]

/-- The scenario page gives the scenario record. -/
theorem parseWeatherData_first_match_witness :
    parseWeatherData scenarioDoc sampleClock = .ok scenarioRecord ∧
    scenarioRecord.Condition = TrimSpace "Облачно" ∧
    scenarioRecord.Pressure = TrimSpace "745 мм" ∧
    scenarioRecord.Humidity = "" ∧ scenarioRecord.Wind = "" :=
  ⟨rfl,
    (parseWeatherData_first_match scenarioDoc sampleClock scenarioRecord rfl).1 "Облачно" [] rfl,
    (parseWeatherData_first_match scenarioDoc sampleClock scenarioRecord rfl).2.1 "745 мм" [] rfl,
    rfl, rfl⟩

/-- C6: when the extracted Temperature is non-empty, `parseWeatherData`
succeeds, and each of Condition, FeelsLike, Pressure, Humidity and Wind whose
selector matches no node is the empty string in the returned record. -/
theorem parseWeatherData_optional_default (doc : Document) (now : Time)
    (h : (extractFields doc now).Temperature ≠ "") :
    ∃ w, parseWeatherData doc now = .ok w ∧
      (doc.linkCondition = [] → w.Condition = "") ∧
      (doc.termValue = [] → w.FeelsLike = "") ∧
      (doc.pressureValue = [] → w.Pressure = "") ∧
      (doc.humidityValue = [] → w.Humidity = "") ∧
      (doc.windSpeed = [] → w.Wind = "") := by
  refine ⟨extractFields doc now, parseWeatherData_ok_of_ne doc now h, ?_⟩
  rw [extractFields_eq]
  refine ⟨?_, ?_, ?_, ?_, ?_⟩ <;> intro hx <;> simp only [hx, firstText, firstDegree]

/-- A page with a temperature and nothing else. -/
theorem parseWeatherData_optional_default_witness :
    (extractFields bareDoc sampleClock).Temperature ≠ "" ∧
    ∃ w, parseWeatherData bareDoc sampleClock = .ok w ∧
      (bareDoc.linkCondition = [] → w.Condition = "") ∧
      (bareDoc.termValue = [] → w.FeelsLike = "") ∧
      (bareDoc.pressureValue = [] → w.Pressure = "") ∧
      (bareDoc.humidityValue = [] → w.Humidity = "") ∧
      (bareDoc.windSpeed = [] → w.Wind = "") :=
  ⟨by decide, parseWeatherData_optional_default bareDoc sampleClock (by decide)⟩

/-! ## `PrintWeather` -/

/-- A line without a line feed, followed by one, is the first line of the
stream. -/
theorem splitLines_line (l rest : List Char) (h : '\n' ∉ l) :
    splitLines (l ++ '\n' :: rest) = l :: splitLines rest := by
  induction l with
  | nil => simp [splitLines]
  | cons c cs ih =>
    have hc : c ≠ '\n' := fun e => h (e ▸ List.mem_cons_self _ _)
    have hcs : '\n' ∉ cs := fun m => h (List.mem_cons_of_mem _ m)
    simp [splitLines, hc, ih hcs]

/-- Writes that are each a text without a line feed followed by a line feed
print exactly those texts, one a line. -/
theorem printedLines_map (bodies : List String) (h : ∀ b ∈ bodies, '\n' ∉ b.data) :
    printedLines (bodies.map (fun b => b ++ "\n")) = bodies := by
  induction bodies with
  | nil => rfl
  | cons b rest ih =>
    have hb : '\n' ∉ b.data := h b (List.mem_cons_self _ _)
    have hrest : ∀ x ∈ rest, '\n' ∉ x.data := fun x hx => h x (List.mem_cons_of_mem _ hx)
    have ih2 := ih hrest
    unfold printedLines at ih2 ⊢
    have hs : stream (List.map (fun b => b ++ "\n") (b :: rest))
        = b.data ++ '\n' :: stream (List.map (fun b => b ++ "\n") rest) := by
      simp [stream, String.data_append]
    rw [hs, splitLines_line _ _ hb, List.map_cons, ih2]

/-- Padding adds spaces only. -/
theorem padRight_noLineFeed (n : Nat) (v : String) (h : '\n' ∉ v.data) :
    '\n' ∉ (padRight n v).data := by
  simp only [padRight, String.data_append, List.mem_append, not_or]
  refine ⟨h, ?_⟩
  intro hm
  have := (List.mem_replicate.mp hm).2
  exact absurd this (by decide)

/-- A formatted line of the box holds no line feed when the value has none. -/
theorem formatted_noLineFeed (label : String) (n : Nat) (v : String)
    (hl : '\n' ∉ label.data) (h : '\n' ∉ v.data) :
    '\n' ∉ (label ++ padRight n v ++ " │").data := by
  have hp := padRight_noLineFeed n v h
  have hs : '\n' ∉ " │".data := by decide
  simp only [String.data_append, List.mem_append, not_or]
  exact ⟨⟨hl, hp⟩, hs⟩

/-- The writes of `PrintWeather` are the lines of the box, each followed by a
line feed. -/
theorem PrintWeather_eq_map (w : Weather) :
    PrintWeather w = (boxLines w).map (fun b => b ++ "\n") := by
  have hsuf : " │\n" = " │" ++ "\n" := by decide
  by_cases h1 : w.FeelsLike = "" <;> by_cases h2 : w.Pressure = "" <;>
    by_cases h3 : w.Humidity = "" <;> by_cases h4 : w.Wind = "" <;>
    simp [PrintWeather, boxLines, h1, h2, h3, h4, Println, topBorder, titleLine, separator,
      bottomBorder, temperatureLine, conditionLine, feelsLikeLine, pressureLine, humidityLine,
      windLine, updatedLine, hsuf, String.append_assoc]

/-- No line of the box holds a line feed when no field does. -/
theorem boxLines_noLineFeed (w : Weather) (h : noLineFeed w) :
    ∀ b ∈ boxLines w, '\n' ∉ b.data := by
  obtain ⟨ht, hc, hf, hp, hh, hw, hu⟩ := h
  have e1 := formatted_noLineFeed "│  Температура: " 25 _ (by decide) ht
  have e2 := formatted_noLineFeed "│  Состояние: " 27 _ (by decide) hc
  have e3 := formatted_noLineFeed "│  Ощущается как: " 22 _ (by decide) hf
  have e4 := formatted_noLineFeed "│  Давление: " 26 _ (by decide) hp
  have e5 := formatted_noLineFeed "│  Влажность: " 25 _ (by decide) hh
  have e6 := formatted_noLineFeed "│  Ветер: " 29 _ (by decide) hw
  have e7 := formatted_noLineFeed "│  Обновлено: " 26 _ (by decide) hu
  have b1 : '\n' ∉ "┌─────────────────────────────────────────┐".data := by decide
  have b2 : '\n' ∉ "│           Погода в Москве               │".data := by decide
  have b3 : '\n' ∉ "├─────────────────────────────────────────┤".data := by decide
  have b4 : '\n' ∉ "└─────────────────────────────────────────┘".data := by decide
  intro b hb
  simp only [boxLines, List.mem_append, List.mem_cons, List.mem_singleton, List.not_mem_nil,
    or_false] at hb
  rcases hb with ((((((rfl | rfl | rfl | rfl | rfl) | hb) | hb) | hb) | hb) | (rfl | rfl))
  · exact b1
  · exact b2
  · exact b3
  · exact e1
  · exact e2
  · split at hb
    · rw [List.mem_singleton.mp hb]; exact e3
    · exact absurd hb (List.not_mem_nil _)
  · split at hb
    · rw [List.mem_singleton.mp hb]; exact e4
    · exact absurd hb (List.not_mem_nil _)
  · split at hb
    · rw [List.mem_singleton.mp hb]; exact e5
    · exact absurd hb (List.not_mem_nil _)
  · split at hb
    · rw [List.mem_singleton.mp hb]; exact e6
    · exact absurd hb (List.not_mem_nil _)
  · exact e7
  · exact b4

/-- The box has seven lines and one more for each non-empty conditional field. -/
theorem boxLines_length (w : Weather) : (boxLines w).length = 7 + optionalCount w := by
  by_cases h1 : w.FeelsLike = "" <;> by_cases h2 : w.Pressure = "" <;>
    by_cases h3 : w.Humidity = "" <;> by_cases h4 : w.Wind = "" <;>
    simp [boxLines, optionalCount, h1, h2, h3, h4]

/-- C9, as stated, fails: `parseWeatherData` returns a Temperature holding a
line feed for a page whose `.temp__value` node spans two lines, and printing
that record, whose four conditional fields are empty, gives eight lines, not
seven: the temperature line is broken in two. -/
theorem PrintWeather_line_feed_in_field :
    parseWeatherData multiLineDoc sampleClock = .ok multiLineRecord ∧
    optionalCount multiLineRecord = 0 ∧
    printedLines (PrintWeather multiLineRecord) =
      ["┌─────────────────────────────────────────┐",
        "│           Погода в Москве               │",
        "├─────────────────────────────────────────┤",
        "│  Температура: +2°",
        "  по Цельсию          │",
        "│  Состояние: Ясно                        │",
        "│  Обновлено: 2024-03-09 07:05:00        │",
        "└─────────────────────────────────────────┘"] ∧
    (printedLines (PrintWeather multiLineRecord)).length = 8 :=
  ⟨rfl, by decide, by decide, by decide⟩

/-- C9, amended: for every record none of whose fields contains a line feed,
the lines `PrintWeather` prints are, in order, the top border, the title, the
separator, the temperature line and the condition line (both always), then
the feels-like, pressure, humidity and wind lines, each present exactly when
its field is non-empty, then the updated line and the bottom border; their
number is 7 plus the number of non-empty fields among the four conditional
ones. -/
theorem PrintWeather_printed_lines (w : Weather) (h : noLineFeed w) :
    printedLines (PrintWeather w) =
      ["┌─────────────────────────────────────────┐",
        "│           Погода в Москве               │",
        "├─────────────────────────────────────────┤",
        "│  Температура: " ++ padRight 25 w.Temperature ++ " │",
        "│  Состояние: " ++ padRight 27 w.Condition ++ " │"]
      ++ (if w.FeelsLike ≠ "" then ["│  Ощущается как: " ++ padRight 22 w.FeelsLike ++ " │"]
          else [])
      ++ (if w.Pressure ≠ "" then ["│  Давление: " ++ padRight 26 w.Pressure ++ " │"] else [])
      ++ (if w.Humidity ≠ "" then ["│  Влажность: " ++ padRight 25 w.Humidity ++ " │"] else [])
      ++ (if w.Wind ≠ "" then ["│  Ветер: " ++ padRight 29 w.Wind ++ " │"] else [])
      ++ ["│  Обновлено: " ++ padRight 26 w.UpdatedAt ++ " │",
        "└─────────────────────────────────────────┘"] ∧
    (printedLines (PrintWeather w)).length = 7 + optionalCount w := by
  have hp : printedLines (PrintWeather w) = boxLines w := by
    rw [PrintWeather_eq_map]
    exact printedLines_map (boxLines w) (boxLines_noLineFeed w h)
  refine ⟨hp, ?_⟩
  rw [hp]
  exact boxLines_length w

/-- A record with all seven fields filled prints eleven lines; the scenario
record, whose only conditional field is the pressure, prints eight. -/
theorem PrintWeather_printed_lines_witness :
    (noLineFeed fullRecord ∧
      (printedLines (PrintWeather fullRecord)).length = 7 + optionalCount fullRecord ∧
      optionalCount fullRecord = 4) ∧
    (noLineFeed scenarioRecord ∧
      (printedLines (PrintWeather scenarioRecord)).length = 7 + optionalCount scenarioRecord ∧
      optionalCount scenarioRecord = 1) :=
  ⟨⟨by decide, (PrintWeather_printed_lines fullRecord (by decide)).2, by decide⟩,
    ⟨by decide, (PrintWeather_printed_lines scenarioRecord (by decide)).2, by decide⟩⟩

/-- C10, evaluated: for a record whose every field fits its padding width the
writes of `PrintWeather` have 44, 44, 44, 44, 44, 43, 42, 42, 42, 43 and 44
characters, line feed included: the feels-like, pressure, humidity, wind and
updated lines are shorter than the top border. -/
theorem PrintWeather_widths_differ :
    fullRecord.Temperature.length ≤ 25 ∧ fullRecord.Condition.length ≤ 27 ∧
    fullRecord.FeelsLike.length ≤ 22 ∧ fullRecord.Pressure.length ≤ 26 ∧
    fullRecord.Humidity.length ≤ 25 ∧ fullRecord.Wind.length ≤ 29 ∧
    fullRecord.UpdatedAt.length ≤ 26 ∧
    (PrintWeather fullRecord).map String.length
      = [44, 44, 44, 44, 44, 43, 42, 42, 42, 43, 44] := by
  decide

/-- For any field value that fits the padding width of the updated line, that
line is one character shorter than the top border. -/
theorem updatedLine_shorter (v : String) (h : v.length ≤ 26) :
    (updatedLine v).length = 43 ∧ (Println topBorder).length = 44 := by
  have h1 : "│  Обновлено: ".length = 14 := by decide
  have h2 : " │\n".length = 3 := by decide
  have h3 : (String.mk (List.replicate (26 - v.length) ' ')).length = 26 - v.length := by
    show (List.replicate (26 - v.length) ' ').length = 26 - v.length
    exact List.length_replicate _ _
  refine ⟨?_, by decide⟩
  simp only [updatedLine, padRight, String.length_append, h1, h2, h3]
  omega

/-! ## `GetWeather` -/

/-- A list is a prefix of itself followed by anything. -/
theorem isPrefixOf_append_self (p t : List Char) : p.isPrefixOf (p ++ t) = true := by
  induction p with
  | nil => simp [List.isPrefixOf]
  | cons a rest ih => simp [List.isPrefixOf, ih]

/-- Every status error starts with `неверный статус код: `. -/
theorem errStatus_starts (code : Int) :
    ("неверный статус код: ".data).isPrefixOf (errStatus code).data = true := by
  simp only [errStatus, String.data_append]
  exact isPrefixOf_append_self _ _

/-- The HTML-parse error does not start with the status prefix. -/
theorem parseError_not_status (err : String) :
    ("неверный статус код: ".data).isPrefixOf ("ошибка парсинга HTML: " ++ err).data = false := by
  rw [String.data_append]
  rfl

/-- The error of `parseWeatherData` does not start with the status prefix. -/
theorem parseWeatherData_error_not_status (doc : Document) (now : Time) (msg : String)
    (h : parseWeatherData doc now = .error msg) :
    ("неверный статус код: ".data).isPrefixOf msg.data = false := by
  have hmsg : msg = errUnavailable := by
    by_cases ht : (extractFields doc now).Temperature = ""
    · rw [parseWeatherData_error_of_eq doc now ht] at h
      exact (Except.error.inj h).symm
    · rw [parseWeatherData_ok_of_ne doc now ht] at h
      exact Except.noConfusion h
  rw [hmsg]
  decide

/-- C7: given a response, a status code other than 200 makes `GetWeather`
return no record and the error `неверный статус код: <code>` with the code in
decimal, whatever the HTML parser and the clock would have given; with status
200 no error starting with `неверный статус код: ` is returned. -/
theorem GetWeather_status (env : World) (resp : Response) (hreq : env.newRequest = .ok ())
    (hdo : env.clientDo = .ok resp) :
    (resp.StatusCode ≠ 200 →
      GetWeather env = .error ("неверный статус код: " ++ toString resp.StatusCode) ∧
      ∀ (parse : String → Except String Document) (clock : Time),
        GetWeather { env with newDocument := parse, now := clock } = GetWeather env) ∧
    (resp.StatusCode = 200 →
      (∀ msg, GetWeather env = .error msg →
        ("неверный статус код: ".data).isPrefixOf msg.data = false) ∧
      ∀ code, GetWeather env ≠ .error (errStatus code)) := by
  constructor
  · intro hne
    have hne2 : (resp.StatusCode != StatusOK) = true := by
      simpa [StatusOK] using hne
    have key : ∀ (parse : String → Except String Document) (clock : Time),
        GetWeather { env with newDocument := parse, now := clock }
          = .error ("неверный статус код: " ++ toString resp.StatusCode) := by
      intro parse clock
      simp only [GetWeather, hreq, hdo, hne2, if_true, errStatus, formatInt]
    have h0 : GetWeather env = .error ("неверный статус код: " ++ toString resp.StatusCode) := by
      simp only [GetWeather, hreq, hdo, hne2, if_true, errStatus, formatInt]
    exact ⟨h0, fun parse clock => by rw [key, h0]⟩
  · intro h200
    have heq : (resp.StatusCode != StatusOK) = false := by
      simp [StatusOK, h200]
    have hstart : ∀ msg, GetWeather env = .error msg →
        ("неверный статус код: ".data).isPrefixOf msg.data = false := by
      intro msg hmsg
      simp only [GetWeather, hreq, hdo, heq] at hmsg
      cases hdoc : env.newDocument resp.Body with
      | error err =>
        rw [hdoc] at hmsg
        have : msg = "ошибка парсинга HTML: " ++ err := (Except.error.inj hmsg).symm
        rw [this]
        exact parseError_not_status err
      | ok doc =>
        rw [hdoc] at hmsg
        exact parseWeatherData_error_not_status doc env.now msg hmsg
    refine ⟨hstart, ?_⟩
    intro code hcode
    have h1 := hstart _ hcode
    rw [errStatus_starts] at h1
    exact Bool.noConfusion h1

/-- A server answering 404, and one answering 200. -/
theorem GetWeather_status_witness :
    GetWeather notFoundWorld = .error "неверный статус код: 404" ∧
    ∀ code, GetWeather okWorld ≠ .error (errStatus code) :=
  ⟨((GetWeather_status notFoundWorld ⟨404, "<html></html>"⟩ rfl rfl).1 (by decide)).1,
    ((GetWeather_status okWorld ⟨200, "<html></html>"⟩ rfl rfl).2 rfl).2⟩

/-! ## The time stamp -/

/-- The character of a decimal digit is a digit. -/
theorem digitChar_isDigit (d : Nat) (h : d < 10) : (Nat.digitChar d).isDigit = true := by
  interval_cases d <;> decide

/-- The decimal form of a number consists of digits. -/
theorem toDigitsCore_isDigit (fuel n : Nat) (ds : List Char)
    (h : ∀ c ∈ ds, c.isDigit = true) : ∀ c ∈ Nat.toDigitsCore 10 fuel n ds, c.isDigit = true := by
  induction fuel generalizing n ds with
  | zero => simpa [Nat.toDigitsCore] using h
  | succ fuel ih =>
    have hd : (Nat.digitChar (n % 10)).isDigit = true :=
      digitChar_isDigit (n % 10) (Nat.mod_lt n (by decide))
    have hcons : ∀ c ∈ Nat.digitChar (n % 10) :: ds, c.isDigit = true := by
      intro c hc
      rcases List.mem_cons.mp hc with rfl | hc
      · exact hd
      · exact h c hc
    simp only [Nat.toDigitsCore]
    split
    · exact hcons
    · exact ih (n / 10) _ hcons

/-- The padded decimal form of a natural number below `10 ^ k` has exactly `k`
characters, all of them digits. -/
theorem appendInt_natCast (n k : Nat) (hn : n < 10 ^ k) (hk : 0 < k) :
    (appendInt (n : Int) k).length = k ∧ ∀ c ∈ appendInt (n : Int) k, c.isDigit = true := by
  have hlen : (Nat.toDigits 10 n).length ≤ k :=
    Nat.toDigitsCore_length 10 (by decide) (n + 1) n k hn hk
  have hdig : ∀ c ∈ Nat.toDigits 10 n, c.isDigit = true :=
    toDigitsCore_isDigit (n + 1) n [] (by simp)
  have hneg : ¬ ((n : Int) < 0) := by omega
  have hform : appendInt (n : Int) k
      = List.replicate (k - (Nat.toDigits 10 n).length) '0' ++ Nat.toDigits 10 n := by
    simp [appendInt, hneg]
  rw [hform]
  constructor
  · simp only [List.length_append, List.length_replicate]
    omega
  · intro c hc
    rcases List.mem_append.mp hc with hc | hc
    · rw [(List.mem_replicate.mp hc).2]
      decide
    · exact hdig c hc

/-- A number below 100, padded to width 2, is two digits. -/
theorem appendInt_two (n : Nat) (hn : n < 100) :
    ∃ a b : Char, a.isDigit = true ∧ b.isDigit = true ∧ appendInt (n : Int) 2 = [a, b] := by
  obtain ⟨hlen, hdig⟩ := appendInt_natCast n 2 (by simpa using hn) (by decide)
  match hl : appendInt (n : Int) 2, hlen, hdig with
  | [a, b], _, hdig => exact ⟨a, b, hdig a (by simp), hdig b (by simp), rfl⟩

/-- A number below 10000, padded to width 4, is four digits. -/
theorem appendInt_four (n : Nat) (hn : n < 10000) :
    ∃ a b c d : Char, a.isDigit = true ∧ b.isDigit = true ∧ c.isDigit = true ∧
      d.isDigit = true ∧ appendInt (n : Int) 4 = [a, b, c, d] := by
  obtain ⟨hlen, hdig⟩ := appendInt_natCast n 4 (by simpa using hn) (by decide)
  match hl : appendInt (n : Int) 4, hlen, hdig with
  | [a, b, c, d], _, hdig =>
    exact ⟨a, b, c, d, hdig a (by simp), hdig b (by simp), hdig c (by simp), hdig d (by simp), rfl⟩

/-- A clock reading with a year from 0 to 9999 formats to the timestamp pattern. -/
theorem Format_matches (t : Time) (hv : t.valid) (h0 : 0 ≤ t.year) (h1 : t.year ≤ 9999) :
    matchesTimestamp t.Format = true ∧ t.Format.length = 19 := by
  obtain ⟨_, hmo, _, hda, hho, hmi, hse⟩ := hv
  obtain ⟨y, hy⟩ := Int.eq_ofNat_of_zero_le h0
  have hy4 : y < 10000 := by omega
  obtain ⟨y1, y2, y3, y4, hy1, hy2, hy3, hy4, hyear⟩ := appendInt_four y hy4
  obtain ⟨m1, m2, hm1, hm2, hmonth⟩ := appendInt_two t.month (by omega)
  obtain ⟨d1, d2, hd1, hd2, hday⟩ := appendInt_two t.day (by omega)
  obtain ⟨o1, o2, ho1, ho2, hhour⟩ := appendInt_two t.hour (by omega)
  obtain ⟨n1, n2, hn1, hn2, hminute⟩ := appendInt_two t.minute (by omega)
  obtain ⟨s1, s2, hs1, hs2, hsecond⟩ := appendInt_two t.second (by omega)
  have hform : t.Format = String.mk [y1, y2, y3, y4, '-', m1, m2, '-', d1, d2, ' ',
      o1, o2, ':', n1, n2, ':', s1, s2] := by
    simp only [Time.Format, hy, hyear, hmonth, hday, hhour, hminute, hsecond]
    rfl
  rw [hform]
  constructor
  · simp [matchesTimestamp, hy1, hy2, hy3, hy4, hm1, hm2, hd1, hd2, ho1, ho2, hn1, hn2, hs1, hs2]
  · rfl

/-- C8, as stated, fails: a clock reading in the year 10000 is stamped with a
five-digit year, twenty characters in all, which the pattern rejects. -/
theorem UpdatedAt_year_10000 :
    farClock.valid ∧
    (extractFields scenarioDoc farClock).UpdatedAt = "10000-01-01 00:00:00" ∧
    (extractFields scenarioDoc farClock).UpdatedAt.length = 20 ∧
    matchesTimestamp (extractFields scenarioDoc farClock).UpdatedAt = false := by
  decide

/-- C8, amended: for every local time whose year lies between 0 and 9999, the
UpdatedAt string stamped by `parseWeatherData` matches
`\d{4}-\d{2}-\d{2} \d{2}:\d{2}:\d{2}` and has exactly 19 characters. -/
theorem UpdatedAt_matches (doc : Document) (now : Time) (hv : now.valid) (h0 : 0 ≤ now.year)
    (h1 : now.year ≤ 9999) :
    (extractFields doc now).UpdatedAt = now.Format ∧
    matchesTimestamp (extractFields doc now).UpdatedAt = true ∧
    (extractFields doc now).UpdatedAt.length = 19 ∧
    ∀ w, parseWeatherData doc now = .ok w →
      matchesTimestamp w.UpdatedAt = true ∧ w.UpdatedAt.length = 19 := by
  have hu : (extractFields doc now).UpdatedAt = now.Format := by rw [extractFields_eq]
  have hm := Format_matches now hv h0 h1
  refine ⟨hu, ?_, ?_, ?_⟩
  · rw [hu]; exact hm.1
  · rw [hu]; exact hm.2
  · intro w hw
    rw [eq_extractFields_of_ok hw, hu]
    exact hm

/-- The stamp of 9 March 2024, 07:05:00. -/
theorem UpdatedAt_matches_witness :
    (extractFields scenarioDoc sampleClock).UpdatedAt = sampleClock.Format ∧
    matchesTimestamp (extractFields scenarioDoc sampleClock).UpdatedAt = true ∧
    (extractFields scenarioDoc sampleClock).UpdatedAt.length = 19 ∧
    ∀ w, parseWeatherData scenarioDoc sampleClock = .ok w →
      matchesTimestamp w.UpdatedAt = true ∧ w.UpdatedAt.length = 19 :=
  UpdatedAt_matches scenarioDoc sampleClock (by decide) (by decide) (by decide)

end WeatherTracker
